import Mathlib

/-!
Shallow embedding of the `prof-rs` client library
(`src/client/rust/prof-rs/src/lib.rs`) and verification of its
specification claims.

JSON values are modelled by an inductive `Json` mirroring
`serde_json::Value`; response bodies are passed to the interpretation
functions as the raw text together with the result of the generic JSON
parse (`Option Json`, `none` meaning the text is not valid JSON), since
the library's own logic starts after `serde_json::from_str`.
-/

namespace Prof

/-- Model of `serde_json::Value`.  Numbers are modelled as integers;
none of the verified code paths inspects numeric values. -/
inductive Json where
  | null
  | bool (b : Bool)
  | num (n : Int)
  | str (s : String)
  | arr (elems : List Json)
  | obj (fields : List (String × Json))

/-- `serde_json::Value::get(key)`: field lookup on an object, `None` otherwise. -/
def Json.getField : Json → String → Option Json
  | .obj fields, key => fields.lookup key
  | _, _ => none

/-- `serde_json::Value::as_str()`. -/
def Json.asStr : Json → Option String
  | .str s => some s
  | _ => none

/-- `serde_json::Value::as_array()`. -/
def Json.asArr : Json → Option (List Json)
  | .arr elems => some elems
  | _ => none

/-- Error taxonomy `ProfError` of the library (the `Http` and
`Serialization` wrappers carry their message rendered to a string). -/
inductive ProfError where
  | Http (msg : String)
  | Serialization (msg : String)
  | Service (msg : String)
  | Auth (msg : String)
  | NotFound (msg : String)
  | Validation (errors : List String)
deriving DecidableEq

/-- The `Profile` record: named fields plus the `#[serde(flatten)]`
map of additional fields. -/
structure Profile where
  uuid : String
  name : String
  email : String
  image_filename : Option String
  created_at : String
  updated_at : String
  additional_fields : List (String × Json)

/-- The wire envelope `ProfileResponse {success, profile?, error?, details?}`. -/
structure ProfileResponse where
  success : Bool
  profile : Option Profile
  error : Option String
  details : Option (List String)

/-- Deserialize an `Option<String>` field: missing or `null` gives `none`,
a JSON string gives `some`, anything else is a deserialization error. -/
def parseOptString (fields : List (String × Json)) (key : String) :
    Option (Option String) :=
  match fields.lookup key with
  | none => some none
  | some .null => some none
  | some (.str s) => some (some s)
  | some _ => none

/-- Deserialize a `Vec<String>`: every element must be a JSON string. -/
def parseStringList : List Json → Option (List String)
  | [] => some []
  | .str s :: rest => (parseStringList rest).map (fun tail => s :: tail)
  | _ :: _ => none

/-- Deserialize an `Option<Vec<String>>` field. -/
def parseOptStringList (fields : List (String × Json)) (key : String) :
    Option (Option (List String)) :=
  match fields.lookup key with
  | none => some none
  | some .null => some none
  | some (.arr elems) => (parseStringList elems).map some
  | some _ => none

/-- Deserialize a required `String` field. -/
def parseReqString (fields : List (String × Json)) (key : String) :
    Option String :=
  match fields.lookup key with
  | some (.str s) => some s
  | _ => none

/-- The named (non-flattened) keys of `Profile`. -/
def profileNamedKeys : List String :=
  ["uuid", "name", "email", "imageFilename", "createdAt", "updatedAt"]

/-- `serde` deserialization of `Profile` from a JSON value: the five
required string fields, the optional `imageFilename`, and every other
key collected into `additional_fields` by `#[serde(flatten)]`. -/
def parseProfile : Json → Option Profile
  | .obj fields =>
    match parseReqString fields "uuid", parseReqString fields "name",
          parseReqString fields "email", parseOptString fields "imageFilename",
          parseReqString fields "createdAt", parseReqString fields "updatedAt" with
    | some u, some n, some e, some img, some ca, some ua =>
      some { uuid := u, name := n, email := e, image_filename := img,
             created_at := ca, updated_at := ua,
             additional_fields :=
               fields.filter (fun p => !(profileNamedKeys.contains p.1)) }
    | _, _, _, _, _, _ => none
  | _ => none

/-- Deserialize the `Option<Profile>` field of the envelope. -/
def parseOptProfile (fields : List (String × Json)) :
    Option (Option Profile) :=
  match fields.lookup "profile" with
  | none => some none
  | some .null => some none
  | some v => (parseProfile v).map some

/-- `serde` deserialization of `ProfileResponse`: `success` is a required
boolean; `profile`, `error` and `details` are optional; unknown fields
are ignored. -/
def parseProfileResponse : Json → Option ProfileResponse
  | .obj fields =>
    match fields.lookup "success", parseOptProfile fields,
          parseOptString fields "error", parseOptStringList fields "details" with
    | some (.bool b), some prof, some err, some det =>
      some { success := b, profile := prof, error := err, details := det }
    | _, _, _, _ => none
  | _ => none

/-- The `details` list of the synthesized fallback envelope:
`error_obj.get("details").and_then(as_array).map(filter_map(as_str))` —
non-string array entries are dropped. -/
def synthDetails (j : Json) : Option (List String) :=
  ((j.getField "details").bind Json.asArr).map (fun elems => elems.filterMap Json.asStr)

/-- The tolerant body parse shared by `create_profile`, `update_profile`
and `get_profile`: try the full envelope; else, if the text is valid JSON
with a string-valued `error` field, synthesize a failure envelope; else
fail with a `Service` error whose message distinguishes valid JSON of the
wrong shape from unparseable text.  `body` is the generic JSON parse of
`raw` (`none` when `raw` is not valid JSON). -/
def parseBody (raw : String) (body : Option Json) :
    Except ProfError ProfileResponse :=
  match body with
  | none => .error (.Service ("Could not parse response: " ++ raw))
  | some j =>
    match parseProfileResponse j with
    | some parsed => .ok parsed
    | none =>
      match (j.getField "error").bind Json.asStr with
      | some errorMsg =>
        .ok { success := false, profile := none, error := some errorMsg,
              details := synthDetails j }
      | none => .error (.Service ("Invalid response format: " ++ raw))

/-- `create_profile`'s mapping of a failure envelope to an error
(HTTP 400 with details → `Validation`; 400 without → `Service`;
404 → `NotFound` defaulting to "Not found"; else `Service`). -/
def mapFailureCreate (status : Nat) (r : ProfileResponse) : ProfError :=
  match status with
  | 400 =>
    match r.details with
    | some details => .Validation details
    | none => .Service (r.error.getD "Validation failed")
  | 404 => .NotFound (r.error.getD "Not found")
  | _ => .Service (r.error.getD "Unknown error")

/-- `update_profile`'s failure mapping: as `create_profile` but the 404
default message is "Profile not found". -/
def mapFailureUpdate (status : Nat) (r : ProfileResponse) : ProfError :=
  match status with
  | 400 =>
    match r.details with
    | some details => .Validation details
    | none => .Service (r.error.getD "Validation failed")
  | 404 => .NotFound (r.error.getD "Profile not found")
  | _ => .Service (r.error.getD "Unknown error")

/-- `get_profile`'s failure mapping: only 404 is distinguished
(there is no 400/`Validation` branch in `get_profile`). -/
def mapFailureGet (status : Nat) (r : ProfileResponse) : ProfError :=
  match status with
  | 404 => .NotFound (r.error.getD "Profile not found")
  | _ => .Service (r.error.getD "Unknown error")

/-- The shared tail of the three profile operations: parse the body,
map a failure envelope through `mapFailure`, require the `profile`
payload on success. -/
def interpretProfileResponse (mapFailure : Nat → ProfileResponse → ProfError)
    (status : Nat) (raw : String) (body : Option Json) :
    Except ProfError Profile :=
  match parseBody raw body with
  | .error e => .error e
  | .ok r =>
    if !r.success then
      .error (mapFailure status r)
    else
      match r.profile with
      | some p => .ok p
      | none => .error (.Service "No profile in response")

/-- Response interpretation of `ProfClient::create_profile` (lib.rs 153-196). -/
def create_profile_response : Nat → String → Option Json → Except ProfError Profile :=
  interpretProfileResponse mapFailureCreate

/-- Response interpretation of `ProfClient::update_profile` (lib.rs 232-275). -/
def update_profile_response : Nat → String → Option Json → Except ProfError Profile :=
  interpretProfileResponse mapFailureUpdate

/-- Response interpretation of `ProfClient::get_profile` (lib.rs 298-334). -/
def get_profile_response : Nat → String → Option Json → Except ProfError Profile :=
  interpretProfileResponse mapFailureGet

/-! ### Authentication parameters

The `sessionless` signing collaborator is external; it is modelled by its
two observable operations.  `Uuid::new_v4()` and the wall clock are the
only effects of `get_auth_params`; they are passed in as the values they
produce in the modelled call (`nonce`, `nowMillis`). -/

/-- The external `Sessionless` signer: a hex-encoded public key and a
signing operation already composed with hex encoding
(`sessionless.sign(msg).to_hex()`). -/
structure Sessionless where
  publicKeyHex : String
  signHex : String → String

/-- `ProfClient::get_auth_params` after the `duration_since(UNIX_EPOCH)`
unwrap has produced `nowMillis` milliseconds and `Uuid::new_v4()` has
produced `nonce`: require a signer, then build the four-entry map
`uuid`/`timestamp`/`hash`/`signature` (listed in insertion order). -/
def get_auth_params (sessionless : Option Sessionless) (nowMillis : Nat)
    (nonce : String) : Except ProfError (List (String × String)) :=
  match sessionless with
  | none => .error (.Auth "Sessionless not configured")
  | some s =>
    let timestamp := toString nowMillis
    .ok [("uuid", s.publicKeyHex), ("timestamp", timestamp),
         ("hash", nonce), ("signature", s.signHex timestamp)]

/-- `SystemTime::now().duration_since(UNIX_EPOCH)`: fails (Rust `Err`)
exactly when the clock reads a time before the epoch.  `now` is the
clock reading in milliseconds relative to the epoch, possibly negative. -/
def duration_since_epoch (now : Int) : Option Nat :=
  if now < 0 then none else some now.toNat

/-- `get_auth_params` with the `.unwrap()` of `duration_since` made
explicit: the result is `none` exactly when the code panics.  The signer
check precedes the timestamp computation, as in the source. -/
def get_auth_params_run (sessionless : Option Sessionless) (now : Int)
    (nonce : String) :
    Option (Except ProfError (List (String × String))) :=
  match sessionless with
  | none => some (.error (.Auth "Sessionless not configured"))
  | some s =>
    match duration_since_epoch now with
    | none => none
    | some millis => some (get_auth_params (some s) millis nonce)

/-! ### Client construction -/

/-- Rust `str::ends_with('/')`: the last character is `'/'`. -/
def rustEndsWithSlash (s : String) : Bool :=
  match s.data.reverse with
  | [] => false
  | c :: _ => c == '/'

/-- Rust `str::trim_end_matches('/')`: remove every trailing `'/'`. -/
def rustTrimEndSlash (s : String) : String :=
  String.mk ((s.data.reverse.dropWhile (fun c => c == '/')).reverse)

/-- The base URL stored by `ProfClient::new`: trim trailing slashes when
the argument ends with `'/'`, else keep it unchanged. -/
def ProfClient.new (base_url : String) : String :=
  if rustEndsWithSlash base_url then rustTrimEndSlash base_url else base_url

/-! ### URL construction and spell requests -/

/-- `ProfClient::get_profile_image_url`: pure URL construction.  The
target is the explicit `uuid` argument or else the signer's own identity
(`auth.get("uuid").unwrap()`; the key is always present, so the `getD`
default is never taken); query parameters are the auth entries rendered
`key=value` and joined with `&`, with no percent-encoding. -/
def get_profile_image_url (sessionless : Option Sessionless) (nowMillis : Nat)
    (nonce : String) (uuid : Option String) (base_url : String) :
    Except ProfError String :=
  match get_auth_params sessionless nowMillis nonce with
  | .error e => .error e
  | .ok auth =>
    let target_uuid :=
      match uuid with
      | some u => u
      | none => (auth.lookup "uuid").getD ""
    let url := base_url ++ "/user/" ++ target_uuid ++ "/profile/image"
    let query_params := auth.map (fun kv => kv.1 ++ "=" ++ kv.2)
    if query_params.isEmpty then .ok url
    else .ok (url ++ "?" ++ String.intercalate "&" query_params)

/-- Insertion into a `HashMap<String, serde_json::Value>`, modelled
extensionally: the new binding shadows any previous one for the key. -/
def mapInsert (m : String → Option Json) (key : String) (v : Json) :
    String → Option Json :=
  fun k => if k = key then some v else m k

/-- The JSON request body built by `ProfClient::execute_spell`: the
caller's `spell_data` with each auth entry inserted over it as a JSON
string (lib.rs 426-429). -/
def execute_spell_request (sessionless : Option Sessionless) (nowMillis : Nat)
    (nonce : String) (spell_data : String → Option Json) :
    Except ProfError (String → Option Json) :=
  match get_auth_params sessionless nowMillis nonce with
  | .error e => .error e
  | .ok auth =>
    .ok (auth.foldl (fun m kv => mapInsert m kv.1 (.str kv.2)) spell_data)

/-! ### ProfileBuilder

`ProfileBuilder` wraps a `HashMap<String, serde_json::Value>`; the map is
modelled extensionally as a function, matching `HashMap`'s unordered
key-value semantics. -/

/-- The builder's `data` map. -/
def ProfileBuilder : Type := String → Option Json

/-- `ProfileBuilder::new()`: the empty map. -/
def ProfileBuilder.empty : ProfileBuilder := fun _ => none

/-- `self.data.insert(key, value)` — shared by `name`, `email` and
`field`, which differ only in the key and value they pass. -/
def ProfileBuilder.insert (b : ProfileBuilder) (key : String) (v : Json) :
    ProfileBuilder :=
  mapInsert b key v

/-- `ProfileBuilder::name`. -/
def ProfileBuilder.name (b : ProfileBuilder) (n : String) : ProfileBuilder :=
  b.insert "name" (.str n)

/-- `ProfileBuilder::email`. -/
def ProfileBuilder.email (b : ProfileBuilder) (e : String) : ProfileBuilder :=
  b.insert "email" (.str e)

/-- `ProfileBuilder::build()` returns the map. -/
def ProfileBuilder.build (b : ProfileBuilder) : String → Option Json := b

/-- Run a sequence of insertions (the key/value pairs passed to `name`,
`email` or `field`, in call order) from the empty builder. -/
def buildFrom (inserts : List (String × Json)) : ProfileBuilder :=
  inserts.foldl (fun b kv => b.insert kv.1 kv.2) ProfileBuilder.empty

/-! ## Helper lemmas -/

theorem dropWhile_slash_replicate (k : Nat) (r : List Char) :
    List.dropWhile (fun c => c == '/') (List.replicate k '/' ++ r) =
      List.dropWhile (fun c => c == '/') r := by
  induction k with
  | zero => rfl
  | succ n ih => simp [List.replicate_succ, List.dropWhile_cons, ih]

theorem dropWhile_of_not_ends (l : List Char)
    (h : rustEndsWithSlash (String.mk l) = false) :
    List.dropWhile (fun c => c == '/') l.reverse = l.reverse := by
  unfold rustEndsWithSlash at h
  cases hl : l.reverse with
  | nil => rfl
  | cons c cs =>
    rw [hl] at h
    have h' : (c == '/') = false := h
    simp only [List.dropWhile_cons, h', Bool.false_eq_true, if_false]

theorem new_eq_trim (s : String) : ProfClient.new s = rustTrimEndSlash s := by
  unfold ProfClient.new
  cases hb : rustEndsWithSlash s with
  | true => rw [if_pos rfl]
  | false =>
    rw [if_neg (by simp [hb])]
    obtain ⟨l⟩ := s
    unfold rustTrimEndSlash
    rw [dropWhile_of_not_ends l hb, List.reverse_reverse]

/-! ## Claims -/

/-- C4 (counterexample): `ProfClient::new` does not strip a single
trailing slash — on a base URL ending in two slashes it strips both. -/
theorem new_single_slash_counterexample :
    ProfClient.new "http://x//" = "http://x" ∧
      ("http://x" : String) ≠ "http://x/" := by
  exact ⟨rfl, by decide⟩

/-- C4 (amended): `ProfClient::new` stores the base URL with all
trailing slashes stripped; in particular a URL ending in exactly one
slash loses exactly that character (the case `k = 1`) and a URL not
ending in a slash is stored unchanged (the case `k = 0`). -/
theorem new_strips_trailing_slashes (t : String) (k : Nat)
    (h : rustEndsWithSlash t = false) :
    ProfClient.new (t ++ String.mk (List.replicate k '/')) = t := by
  obtain ⟨l⟩ := t
  rw [new_eq_trim]
  show rustTrimEndSlash (String.mk (l ++ List.replicate k '/')) = String.mk l
  unfold rustTrimEndSlash
  rw [List.reverse_append, List.reverse_replicate, dropWhile_slash_replicate,
    dropWhile_of_not_ends l h, List.reverse_reverse]

/-- C4 (witness): the amended claim at concrete inputs — one trailing
slash is stripped, and a slash-free URL is unchanged. -/
theorem new_strips_trailing_slashes_witness :
    ProfClient.new ("http://a" ++ String.mk (List.replicate 1 '/')) = "http://a" ∧
    ProfClient.new ("http://b" ++ String.mk (List.replicate 0 '/')) = "http://b" :=
  ⟨new_strips_trailing_slashes "http://a" 1 (by decide),
   new_strips_trailing_slashes "http://b" 0 (by decide)⟩

/-- C3: `get_auth_params` fails, and fails with an `Auth` error, exactly
when no `Sessionless` signer is configured; with a signer it returns the
four-entry mapping `uuid` (hex public key), `timestamp` (milliseconds as
a decimal string), `hash` (the fresh nonce), `signature` (hex signature
over the timestamp string).  The function is pure: its only inputs are
the signer, the clock reading and the generated nonce. -/
theorem get_auth_params_spec (sessionless : Option Sessionless)
    (nowMillis : Nat) (nonce : String) :
    (sessionless = none →
      get_auth_params sessionless nowMillis nonce =
        .error (.Auth "Sessionless not configured")) ∧
    (∀ s, sessionless = some s →
      get_auth_params sessionless nowMillis nonce =
        .ok [("uuid", s.publicKeyHex), ("timestamp", toString nowMillis),
             ("hash", nonce), ("signature", s.signHex (toString nowMillis))]) ∧
    ((∃ e, get_auth_params sessionless nowMillis nonce = .error e) ↔
      sessionless = none) := by
  refine ⟨fun h => by rw [h]; rfl, fun s h => by rw [h]; rfl, ?_⟩
  cases sessionless with
  | none => exact ⟨fun _ => rfl, fun _ => ⟨_, rfl⟩⟩
  | some s =>
    refine ⟨fun ⟨e, he⟩ => ?_, fun h => by cases h⟩
    simp [get_auth_params] at he

/-- C3 (witness): concrete evaluation with and without a signer. -/
theorem get_auth_params_spec_witness :
    get_auth_params (some ⟨"pk", fun m => "sig" ++ m⟩) 5 "n1" =
      .ok [("uuid", "pk"), ("timestamp", "5"), ("hash", "n1"),
           ("signature", "sig5")] ∧
    get_auth_params none 5 "n1" = .error (.Auth "Sessionless not configured") :=
  ⟨(get_auth_params_spec (some ⟨"pk", fun m => "sig" ++ m⟩) 5 "n1").2.1 _ rfl,
   (get_auth_params_spec none 5 "n1").1 rfl⟩

/-- C8: two calls of `get_auth_params` drawing distinct nonces produce
distinct `hash` values, even at the same clock millisecond — the hash is
exactly the per-call fresh nonce, never cached or reused and not derived
from the timestamp. -/
theorem auth_hash_distinct (s : Sessionless) (nowMillis : Nat)
    (nonce1 nonce2 : String) (hne : nonce1 ≠ nonce2)
    (a1 a2 : List (String × String))
    (h1 : get_auth_params (some s) nowMillis nonce1 = .ok a1)
    (h2 : get_auth_params (some s) nowMillis nonce2 = .ok a2) :
    a1.lookup "hash" ≠ a2.lookup "hash" := by
  have e1 : a1 = [("uuid", s.publicKeyHex), ("timestamp", toString nowMillis),
      ("hash", nonce1), ("signature", s.signHex (toString nowMillis))] := by
    simpa [get_auth_params] using h1.symm
  have e2 : a2 = [("uuid", s.publicKeyHex), ("timestamp", toString nowMillis),
      ("hash", nonce2), ("signature", s.signHex (toString nowMillis))] := by
    simpa [get_auth_params] using h2.symm
  rw [e1, e2]
  intro h
  exact hne (by simpa [List.lookup] using h)

/-- C8 (witness): same millisecond, distinct nonces, distinct hashes. -/
theorem auth_hash_distinct_witness :
    (List.lookup "hash" [("uuid", "pk"), ("timestamp", "5"), ("hash", "n1"),
        ("signature", "s5")]) ≠
      (List.lookup "hash" [("uuid", "pk"), ("timestamp", "5"), ("hash", "n2"),
        ("signature", "s5")]) :=
  auth_hash_distinct ⟨"pk", fun m => "s" ++ m⟩ 5 "n1" "n2" (by decide) _ _ rfl rfl

/-- C10: `get_auth_params` panics — rather than returning an error —
exactly when a signer is configured and the clock reads a time before
the UNIX epoch (`duration_since(UNIX_EPOCH).unwrap()`); at or after the
epoch it is total. -/
theorem get_auth_params_epoch_precondition (nonce : String) :
    (∀ (s : Sessionless) (now : Int), now < 0 →
      get_auth_params_run (some s) now nonce = none) ∧
    (∀ (sessionless : Option Sessionless) (now : Int), 0 ≤ now →
      get_auth_params_run sessionless now nonce =
        some (get_auth_params sessionless now.toNat nonce)) := by
  constructor
  · intro s now h
    simp [get_auth_params_run, duration_since_epoch, h]
  · intro sessionless now h
    cases sessionless with
    | none => rfl
    | some s =>
      simp [get_auth_params_run, duration_since_epoch, Int.not_lt.mpr h]

/-- C10 (witness): one millisecond before the epoch the call panics;
with no signer the check precedes the unwrap, so it returns `Auth`. -/
theorem get_auth_params_epoch_precondition_witness :
    get_auth_params_run (some ⟨"pk", fun m => m⟩) (-1) "n" = none ∧
    get_auth_params_run none 7 "n" =
      some (get_auth_params none 7 "n") :=
  ⟨(get_auth_params_epoch_precondition "n").1 ⟨"pk", fun m => m⟩ (-1) (by decide),
   (get_auth_params_epoch_precondition "n").2 none 7 (by decide)⟩

/-- C5: `get_profile_image_url` is pure URL construction (no I/O in the
model), and with `target_uuid = None` and a signer configured it returns
base URL + "/user/" + the signer's hex identity + "/profile/image"
followed by the four auth entries as unescaped `key=value` pairs joined
with `&`. -/
theorem get_profile_image_url_self (s : Sessionless) (nowMillis : Nat)
    (nonce : String) (base_url : String) :
    get_profile_image_url (some s) nowMillis nonce none base_url =
      .ok (base_url ++ "/user/" ++ s.publicKeyHex ++ "/profile/image" ++ "?" ++
        String.intercalate "&"
          ["uuid=" ++ s.publicKeyHex,
           "timestamp=" ++ toString nowMillis,
           "hash=" ++ nonce,
           "signature=" ++ s.signHex (toString nowMillis)]) := by
  rfl

/-- C5 (witness): concrete evaluation of the URL. -/
theorem get_profile_image_url_self_witness :
    get_profile_image_url (some ⟨"pk", fun m => "s" ++ m⟩) 3 "n" none "http://h" =
      .ok "http://h/user/pk/profile/image?uuid=pk&timestamp=3&hash=n&signature=s3" :=
  (get_profile_image_url_self ⟨"pk", fun m => "s" ++ m⟩ 3 "n" "http://h").trans
    (by rfl)

/-- C9: in `execute_spell` the auth parameters are inserted after the
caller's `spell_data`, so the request body maps each of the four auth
keys to the freshly generated auth value (as a JSON string) regardless
of what the caller put there, and every other key is taken from the
caller's data unchanged. -/
theorem execute_spell_auth_overrides (s : Sessionless) (nowMillis : Nat)
    (nonce : String) (spell_data : String → Option Json)
    (rd : String → Option Json)
    (h : execute_spell_request (some s) nowMillis nonce spell_data = .ok rd) :
    rd "uuid" = some (.str s.publicKeyHex) ∧
    rd "timestamp" = some (.str (toString nowMillis)) ∧
    rd "hash" = some (.str nonce) ∧
    rd "signature" = some (.str (s.signHex (toString nowMillis))) ∧
    ∀ k, k ∉ (["uuid", "timestamp", "hash", "signature"] : List String) →
      rd k = spell_data k := by
  have hrd : rd = List.foldl (fun m kv => mapInsert m kv.1 (.str kv.2))
      spell_data
      [("uuid", s.publicKeyHex), ("timestamp", toString nowMillis),
       ("hash", nonce), ("signature", s.signHex (toString nowMillis))] := by
    simpa [execute_spell_request, get_auth_params] using h.symm
  rw [hrd]
  refine ⟨rfl, rfl, rfl, rfl, ?_⟩
  intro k hk
  simp only [List.mem_cons, List.not_mem_nil, or_false, not_or] at hk
  obtain ⟨h1, h2, h3, h4⟩ := hk
  simp [get_auth_params, mapInsert, h1, h2, h3, h4]

/-- C9 (witness): a caller-supplied "uuid" entry is overwritten and a
non-auth key survives. -/
theorem execute_spell_auth_overrides_witness :
    (List.foldl (fun m kv => mapInsert m kv.1 (Json.str kv.2))
        (mapInsert (mapInsert ProfileBuilder.empty "uuid" (.str "attacker"))
          "payload" (.str "x"))
        [("uuid", "pk"), ("timestamp", "5"), ("hash", "n"), ("signature", "s5")]
      "uuid" = some (.str "pk")) ∧
    (List.foldl (fun m kv => mapInsert m kv.1 (Json.str kv.2))
        (mapInsert (mapInsert ProfileBuilder.empty "uuid" (.str "attacker"))
          "payload" (.str "x"))
        [("uuid", "pk"), ("timestamp", "5"), ("hash", "n"), ("signature", "s5")]
      "payload" = some (.str "x")) := by
  have h := execute_spell_auth_overrides ⟨"pk", fun m => "s" ++ m⟩ 5 "n"
    (mapInsert (mapInsert ProfileBuilder.empty "uuid" (.str "attacker"))
      "payload" (.str "x")) _ rfl
  exact ⟨h.1, (h.2.2.2.2 "payload" (by decide)).trans rfl⟩

theorem foldl_insert_lookup (inserts : List (String × Json))
    (b : ProfileBuilder) (key : String) :
    (inserts.foldl (fun acc kv => acc.insert kv.1 kv.2) b) key =
      match (inserts.filter (fun p => p.1 == key)).getLast? with
      | some p => some p.2
      | none => b key := by
  induction inserts generalizing b with
  | nil => rfl
  | cons kv rest ih =>
    rw [List.foldl_cons, ih, List.filter_cons]
    by_cases hkv : (kv.1 == key) = true
    · rw [if_pos hkv, List.getLast?_cons]
      cases hrest : (rest.filter (fun p => p.1 == key)).getLast? with
      | some p => simp
      | none =>
        simp only [Option.getD_none]
        show (b.insert kv.1 kv.2) key = some kv.2
        simp only [ProfileBuilder.insert, mapInsert,
          if_pos (eq_of_beq hkv).symm]
    · rw [if_neg hkv]
      cases hrest : (rest.filter (fun p => p.1 == key)).getLast? with
      | some p => rfl
      | none =>
        show (b.insert kv.1 kv.2) key = b key
        have hne : key ≠ kv.1 := fun he => hkv (by rw [he]; exact beq_self_eq_true kv.1)
        simp only [ProfileBuilder.insert, mapInsert, if_neg hne]

/-- C7: for every sequence of insertions into a `ProfileBuilder`, the
built map at a key is exactly the last value inserted for that key — so
each inserted pair is retrievable unchanged (when not overwritten), a key
inserted more than once yields the last inserted value, and the result
at a key depends only on the insertions for that key, not on the order or
presence of other keys. -/
theorem builder_last_write_wins (inserts : List (String × Json))
    (key : String) :
    (buildFrom inserts).build key =
      ((inserts.filter (fun p => p.1 == key)).getLast?).map Prod.snd := by
  show (inserts.foldl (fun acc kv => acc.insert kv.1 kv.2)
    ProfileBuilder.empty) key = _
  rw [foldl_insert_lookup]
  cases (inserts.filter (fun p => p.1 == key)).getLast? with
  | some p => rfl
  | none => rfl

/-- C7 (witness): insert name twice via the builder methods with an email
insertion in between — the last name wins, and the email is retrievable
unchanged. -/
theorem builder_last_write_wins_witness :
    (buildFrom [("name", .str "a"), ("email", .str "e"), ("name", .str "b")]
      |>.build "name") = some (.str "b") ∧
    (buildFrom [("name", .str "a"), ("email", .str "e"), ("name", .str "b")]
      |>.build "email") = some (.str "e") :=
  ⟨(builder_last_write_wins
      [("name", .str "a"), ("email", .str "e"), ("name", .str "b")]
      "name").trans rfl,
   (builder_last_write_wins
      [("name", .str "a"), ("email", .str "e"), ("name", .str "b")]
      "email").trans rfl⟩

/-- The profile of the specification's success example. -/
def exampleProfileJson : Json :=
  .obj [("uuid", .str "u1"), ("name", .str "A"), ("email", .str "a@x.com"),
        ("createdAt", .str "t1"), ("updatedAt", .str "t1")]

/-- The body `{"success":true,"profile":{...}}` of the success example. -/
def exampleBody : Json :=
  .obj [("success", .bool true), ("profile", exampleProfileJson)]

/-- The `Profile` value the success example deserializes to. -/
def exampleProfile : Profile :=
  { uuid := "u1", name := "A", email := "a@x.com", image_filename := none,
    created_at := "t1", updated_at := "t1", additional_fields := [] }

/-- C6: for the three profile operations, a successful envelope without
a `profile` payload fails with `Service "No profile in response"`, and a
successful envelope with a payload returns that `Profile` unchanged. -/
theorem profile_payload_handling (status : Nat) (raw : String) (j : Json)
    (r : ProfileResponse) (hparse : parseProfileResponse j = some r)
    (hsucc : r.success = true) :
    (r.profile = none →
      create_profile_response status raw (some j) =
          .error (.Service "No profile in response") ∧
      update_profile_response status raw (some j) =
          .error (.Service "No profile in response") ∧
      get_profile_response status raw (some j) =
          .error (.Service "No profile in response")) ∧
    (∀ p, r.profile = some p →
      create_profile_response status raw (some j) = .ok p ∧
      update_profile_response status raw (some j) = .ok p ∧
      get_profile_response status raw (some j) = .ok p) := by
  constructor
  · intro hnone
    refine ⟨?_, ?_, ?_⟩ <;>
      simp [create_profile_response, update_profile_response,
        get_profile_response, interpretProfileResponse, parseBody, hparse,
        hsucc, hnone]
  · intro p hp
    refine ⟨?_, ?_, ?_⟩ <;>
      simp [create_profile_response, update_profile_response,
        get_profile_response, interpretProfileResponse, parseBody, hparse,
        hsucc, hp]

/-- C6 (witness): the specification's example body yields exactly the
example profile, whose name is "A"; a success body with no profile field
yields the "No profile in response" error. -/
theorem profile_payload_handling_witness :
    create_profile_response 200 "" (some exampleBody) = .ok exampleProfile ∧
    get_profile_response 200 "" (some exampleBody) = .ok exampleProfile ∧
    exampleProfile.name = "A" ∧
    get_profile_response 200 "" (some (.obj [("success", .bool true)])) =
      .error (.Service "No profile in response") := by
  refine ⟨?_, ?_, rfl, ?_⟩
  · exact ((profile_payload_handling 200 "" exampleBody
      { success := true, profile := some exampleProfile, error := none,
        details := none } rfl rfl).2 exampleProfile rfl).1
  · exact ((profile_payload_handling 200 "" exampleBody
      { success := true, profile := some exampleProfile, error := none,
        details := none } rfl rfl).2 exampleProfile rfl).2.2
  · exact ((profile_payload_handling 200 "" (.obj [("success", .bool true)])
      { success := true, profile := none, error := none, details := none }
      rfl rfl).1 rfl).2.2

/-- C2: response interpretation is total and three-way for all three
profile operations.  A body that parses as the full envelope is used
as-is; otherwise valid JSON with a string-valued `error` field yields a
synthesized failure envelope whose `details` keeps only the string
entries of the body's `details` array; otherwise the call fails with a
`Service` error — "Invalid response format: ..." for valid JSON without
a string `error` field, "Could not parse response: ..." for text that is
not JSON — both carrying the raw response text.  Totality (no panic) is
by construction: the interpretation functions are total. -/
theorem tolerant_parse_total (status : Nat) (raw : String) :
    (create_profile_response status raw none =
        .error (.Service ("Could not parse response: " ++ raw)) ∧
     update_profile_response status raw none =
        .error (.Service ("Could not parse response: " ++ raw)) ∧
     get_profile_response status raw none =
        .error (.Service ("Could not parse response: " ++ raw))) ∧
    (∀ j, parseProfileResponse j = none →
       (j.getField "error").bind Json.asStr = none →
       create_profile_response status raw (some j) =
          .error (.Service ("Invalid response format: " ++ raw)) ∧
       update_profile_response status raw (some j) =
          .error (.Service ("Invalid response format: " ++ raw)) ∧
       get_profile_response status raw (some j) =
          .error (.Service ("Invalid response format: " ++ raw))) ∧
    (∀ j msg, parseProfileResponse j = none →
       (j.getField "error").bind Json.asStr = some msg →
       parseBody raw (some j) =
         .ok { success := false, profile := none, error := some msg,
               details := synthDetails j }) ∧
    (∀ j r, parseProfileResponse j = some r →
       parseBody raw (some j) = .ok r) := by
  refine ⟨⟨rfl, rfl, rfl⟩, ?_, ?_, ?_⟩
  · intro j hparse herr
    refine ⟨?_, ?_, ?_⟩ <;>
      simp [create_profile_response, update_profile_response,
        get_profile_response, interpretProfileResponse, parseBody, hparse,
        herr]
  · intro j msg hparse herr
    simp [parseBody, hparse, herr]
  · intro j r hparse
    simp [parseBody, hparse]

/-- A body that is valid JSON with a string `error` field and a `details`
array mixing string and non-string entries. -/
def mixedErrorBody : Json :=
  .obj [("error", .str "Bad"),
        ("details", .arr [.str "a", .num 3, .str "b"])]

/-- A body that is valid JSON but has no string-valued `error` field. -/
def noErrorFieldBody : Json := .obj [("status", .str "odd")]

/-- C2 (witness): the unparseable body "not json at all" fails with a
`Service` error; valid JSON without an `error` field is distinguished;
the synthesized envelope drops the non-string details entry. -/
theorem tolerant_parse_total_witness :
    create_profile_response 500 "not json at all" none =
      .error (.Service "Could not parse response: not json at all") ∧
    get_profile_response 500 "{}" (some noErrorFieldBody) =
      .error (.Service "Invalid response format: {}") ∧
    parseBody "x" (some mixedErrorBody) =
      .ok { success := false, profile := none, error := some "Bad",
            details := some ["a", "b"] } := by
  refine ⟨?_, ?_, ?_⟩
  · exact ((tolerant_parse_total 500 "not json at all").1.1).trans (by rfl)
  · exact (((tolerant_parse_total 500 "{}").2.1 noErrorFieldBody rfl
      rfl).2.2).trans (by rfl)
  · exact (((tolerant_parse_total 500 "x").2.2.1 mixedErrorBody "Bad" rfl
      rfl)).trans (by rfl)

/-- The specification's HTTP 400 example body:
`{"success":false,"error":"Invalid","details":["name required","email invalid"]}`. -/
def badRequestBody : Json :=
  .obj [("success", .bool false), ("error", .str "Invalid"),
        ("details", .arr [.str "name required", .str "email invalid"])]

/-- The 404 example body `{"success":false,"error":"Profile not found"}`. -/
def notFoundBody : Json :=
  .obj [("success", .bool false), ("error", .str "Profile not found")]

/-- C1 (counterexample): `get_profile` has no 400/`Validation` branch —
on HTTP 400 with a details list it fails with `Service` carrying the
envelope's error, not with `Validation` carrying the list. -/
theorem get_profile_400_counterexample :
    get_profile_response 400 "" (some badRequestBody) =
      .error (.Service "Invalid") ∧
    ProfError.Service "Invalid" ≠
      ProfError.Validation ["name required", "email invalid"] :=
  ⟨rfl, by decide⟩

/-- C1 (amended): for a failure envelope, `create_profile` and
`update_profile` map HTTP 400 to `Validation` when details are present
and to `Service` (default "Validation failed") otherwise; all three
operations map 404 to `NotFound` carrying the envelope's error; every
other status — which for `get_profile` includes 400, since it has no
validation branch — maps to `Service` carrying the envelope's error
(default "Unknown error"). -/
theorem failure_envelope_error_mapping (status : Nat) (raw : String)
    (j : Json) (r : ProfileResponse)
    (hparse : parseProfileResponse j = some r)
    (hfail : r.success = false) :
    (status = 400 → ∀ d, r.details = some d →
      create_profile_response status raw (some j) =
          .error (.Validation d) ∧
      update_profile_response status raw (some j) =
          .error (.Validation d)) ∧
    (status = 400 → r.details = none →
      create_profile_response status raw (some j) =
          .error (.Service (r.error.getD "Validation failed")) ∧
      update_profile_response status raw (some j) =
          .error (.Service (r.error.getD "Validation failed"))) ∧
    (status = 404 →
      create_profile_response status raw (some j) =
          .error (.NotFound (r.error.getD "Not found")) ∧
      update_profile_response status raw (some j) =
          .error (.NotFound (r.error.getD "Profile not found")) ∧
      get_profile_response status raw (some j) =
          .error (.NotFound (r.error.getD "Profile not found"))) ∧
    (status ≠ 400 → status ≠ 404 →
      create_profile_response status raw (some j) =
          .error (.Service (r.error.getD "Unknown error")) ∧
      update_profile_response status raw (some j) =
          .error (.Service (r.error.getD "Unknown error"))) ∧
    (status ≠ 404 →
      get_profile_response status raw (some j) =
          .error (.Service (r.error.getD "Unknown error"))) := by
  have hc : create_profile_response status raw (some j) =
      .error (mapFailureCreate status r) := by
    simp [create_profile_response, interpretProfileResponse, parseBody,
      hparse, hfail]
  have hu : update_profile_response status raw (some j) =
      .error (mapFailureUpdate status r) := by
    simp [update_profile_response, interpretProfileResponse, parseBody,
      hparse, hfail]
  have hg : get_profile_response status raw (some j) =
      .error (mapFailureGet status r) := by
    simp [get_profile_response, interpretProfileResponse, parseBody,
      hparse, hfail]
  refine ⟨?_, ?_, ?_, ?_, ?_⟩
  · rintro rfl d hd
    exact ⟨by rw [hc]; simp [mapFailureCreate, hd],
           by rw [hu]; simp [mapFailureUpdate, hd]⟩
  · rintro rfl hd
    exact ⟨by rw [hc]; simp [mapFailureCreate, hd],
           by rw [hu]; simp [mapFailureUpdate, hd]⟩
  · rintro rfl
    exact ⟨by rw [hc]; simp [mapFailureCreate],
           by rw [hu]; simp [mapFailureUpdate],
           by rw [hg]; simp [mapFailureGet]⟩
  · intro h400 h404
    constructor
    · rw [hc]; unfold mapFailureCreate; split
      · exact absurd rfl h400
      · exact absurd rfl h404
      · rfl
    · rw [hu]; unfold mapFailureUpdate; split
      · exact absurd rfl h400
      · exact absurd rfl h404
      · rfl
  · intro h404
    rw [hg]; unfold mapFailureGet; split
    · exact absurd rfl h404
    · rfl

/-- C1 (witness): the 404 example — `get_profile` on 404 with
`{"success":false,"error":"Profile not found"}` fails with
`NotFound("Profile not found")` — and the create-side 400 example with
a details list fails with `Validation` carrying exactly that list. -/
theorem failure_envelope_error_mapping_witness :
    get_profile_response 404 "" (some notFoundBody) =
      .error (.NotFound "Profile not found") ∧
    create_profile_response 400 "" (some badRequestBody) =
      .error (.Validation ["name required", "email invalid"]) := by
  constructor
  · exact ((failure_envelope_error_mapping 404 "" notFoundBody
      { success := false, profile := none, error := some "Profile not found",
        details := none } rfl rfl).2.2.1 rfl).2.2.trans (by rfl)
  · exact (((failure_envelope_error_mapping 400 "" badRequestBody
      { success := false, profile := none, error := some "Invalid",
        details := some ["name required", "email invalid"] } rfl rfl).1 rfl
      ["name required", "email invalid"] rfl).1).trans (by rfl)

end Prof
